import Mathlib

/-!
Verification of the orchestrator core of the Contoso Restaurants multi-agent
demo (`src/agents/orchestrator/main.py`): the sub-agent HTTP client
(`_call_sub_agent`), its three response-shape parsers, the tool layer
(`query_ops_agent` / `query_menu_agent`), and the router loop
(`llm_call` / `tool_node` / `should_continue` / `build_graph`).

The embedding is shallow: Python values decoded from JSON are modelled by the
`Json` inductive; Python operations that can raise (`x[k]`, `k in x`,
iteration, `"\n".join`, the f-string slice `x[:200]`) are modelled in
`Except Unit`, an `error` meaning an exception that the enclosing
`except Exception` handler of `_call_sub_agent` converts into the generic
apology text.  The network and the deciding LLM are external collaborators
and are modelled as explicit oracle parameters.
-/

namespace AgentHub

/-- A decoded JSON payload (the Python value returned by `response.json()`). -/
inductive Json where
  | null
  | bool (b : Bool)
  | num (n : Int)
  | str (s : String)
  | arr (xs : List Json)
  | obj (fields : List (String × Json))

/-- Python truthiness (`if data["output_text"]:` etc.). -/
def truthy : Json → Bool
  | .null => false
  | .bool b => b
  | .num n => n != 0
  | .str s => !s.isEmpty
  | .arr xs => !xs.isEmpty
  | .obj kvs => !kvs.isEmpty

/-- Whether `v[:200]` (the slice in the logging f-strings) succeeds: Python
slicing works on strings and lists and raises `TypeError` otherwise. -/
def sliceOk : Json → Bool
  | .str _ => true
  | .arr _ => true
  | _ => false

/-- Python `k in data`: key test on dicts, membership on lists, substring test
on strings; raises `TypeError` on other values. -/
def pyContains (data : Json) (k : String) : Except Unit Bool :=
  match data with
  | .obj kvs => .ok (List.lookup k kvs).isSome
  | .arr xs => .ok (xs.any (fun x => match x with | .str s => s == k | _ => false))
  | .str s => .ok (decide (k.data <:+: s.data))
  | _ => .error ()

/-- Python `data[k]` with a string key: dict lookup (`KeyError` when absent),
`TypeError` on any other value. -/
def pyIndex (data : Json) (k : String) : Except Unit Json :=
  match data with
  | .obj kvs =>
    match List.lookup k kvs with
    | some v => .ok v
    | none => .error ()
  | _ => .error ()

/-- Python `data[0]`: first element of a list (`IndexError` when empty), first
character of a string, `KeyError` on a (string-keyed) dict, `TypeError`
otherwise. -/
def pyIndex0 : Json → Except Unit Json
  | .arr (x :: _) => .ok x
  | .arr [] => .error ()
  | .str s =>
    match s.data with
    | c :: _ => .ok (.str (String.mk [c]))
    | [] => .error ()
  | _ => .error ()

/-- Python `j.get(k, dflt)`: only dicts have `.get`; anything else raises
`AttributeError`. -/
def pyGet (j : Json) (k : String) (dflt : Json) : Except Unit Json :=
  match j with
  | .obj kvs => .ok ((List.lookup k kvs).getD dflt)
  | _ => .error ()

/-- Python iteration `for b in x`: lists yield their elements, strings yield
their characters as one-character strings, dicts yield their keys; other
values raise `TypeError`. -/
def pyIter : Json → Except Unit (List Json)
  | .arr xs => .ok xs
  | .str s => .ok (s.data.map (fun c => Json.str (String.mk [c])))
  | .obj kvs => .ok (kvs.map (fun kv => Json.str kv.1))
  | _ => .error ()

mutual
/-- Python `repr` of a decoded JSON value (what `str(data)` prints for
non-string containers): used by the unparsable-payload fallback message. -/
def pyStr : Json → String
  | .null => "None"
  | .bool b => if b then "True" else "False"
  | .num n => toString n
  | .str s => "'" ++ s ++ "'"
  | .arr xs => "[" ++ pyStrElems xs ++ "]"
  | .obj kvs => "\x7b" ++ pyStrFields kvs ++ "\x7d"

/-- Comma-separated reprs of list elements. -/
def pyStrElems : List Json → String
  | [] => ""
  | [x] => pyStr x
  | x :: y :: rest => pyStr x ++ ", " ++ pyStrElems (y :: rest)

/-- Comma-separated `'key': value` reprs of dict fields. -/
def pyStrFields : List (String × Json) → String
  | [] => ""
  | [(k, v)] => "'" ++ k ++ "': " ++ pyStr v
  | (k, v) :: f :: rest => "'" ++ k ++ "': " ++ pyStr v ++ ", " ++ pyStrFields (f :: rest)
end

/-- Python `str(x)`: the string itself for strings, `repr` otherwise. -/
def pyToStr : Json → String
  | .str s => s
  | v => pyStr v

/-! ### User-facing texts of `_call_sub_agent` -/

/-- Returned when `FOUNDRY_PROJECT_ENDPOINT` is empty. -/
def missingEndpointMsg (agent_name : String) : String :=
  "Error: FOUNDRY_PROJECT_ENDPOINT is not configured. Cannot reach " ++ agent_name ++ "."

/-- Returned from the `httpx.HTTPStatusError` handler. -/
def statusErrorMsg (agent_name : String) (code : Nat) : String :=
  "Sorry, I couldn't reach the " ++ agent_name ++ ". It returned HTTP "
    ++ toString code ++ ". Please try again."

/-- Returned from the `httpx.RequestError` (transport failure) handler. -/
def transportErrorMsg (agent_name : String) : String :=
  "Sorry, I couldn't connect to the " ++ agent_name ++ ". Please try again later."

/-- Returned from the catch-all `except Exception` handler. -/
def genericApology (agent_name : String) : String :=
  "Sorry, an unexpected error occurred while contacting the " ++ agent_name ++ ". Please try again."

/-- The diagnostic fallback when no response shape matches: embeds
`str(data)[:300]`. -/
def unparsableMsg (agent_name : String) (data : Json) : String :=
  "Received a response from " ++ agent_name ++ " but could not parse it. Raw: "
    ++ (pyToStr data).take 300

/-! ### Response parsing (`_call_sub_agent`, formats 1-3)

Each `formatN` returns `.ok (some _)` when the shape matched and produced a
result, `.ok none` when parsing falls through to the next shape, and
`.error ()` when the Python code would raise (caught by the outer
`except Exception`). -/

/-- Format 1: `if "output_text" in data and data["output_text"]: return it`.
The returned value is logged through `result[:200]`, which raises for
non-sliceable values. -/
def format1 (data : Json) : Except Unit (Option Json) :=
  match pyContains data "output_text" with
  | .error e => .error e
  | .ok false => .ok none
  | .ok true =>
    match pyIndex data "output_text" with
    | .error e => .error e
    | .ok v =>
      if truthy v then
        if sliceOk v then .ok (some v) else .error ()
      else .ok none

/-- One content block of a message item: a dict carrying a `"text"` field
contributes that field's value, a raw string contributes itself, anything
else is skipped (`texts.append` guards in the source). -/
def blockText : Json → Option Json
  | .obj kvs =>
    match List.lookup "text" kvs with
    | some v => some v
    | none => none
  | .str s => some (.str s)
  | _ => none

/-- Python `"\n".join(texts)` restricted to strings: raises `TypeError` when any
element is not a string. -/
def strValues : List Json → Except Unit (List String)
  | [] => .ok []
  | t :: ts =>
    match t with
    | .str s =>
      match strValues ts with
      | .ok ss => .ok (s :: ss)
      | .error e => .error e
    | _ => .error ()

/-- Python `"\n".join(texts)`. -/
def pyJoinNewline (texts : List Json) : Except Unit String :=
  match strValues texts with
  | .ok ss => .ok (String.intercalate "\n" ss)
  | .error e => .error e

/-- Processing of one item of the `output` array: a dict whose `"type"` is
`"message"` and that has a `"content"` key yields the newline-join of its
non-empty fragment list (`.ok (some _)`), otherwise the loop continues
(`.ok none`); a non-dict item raises (`item.get` on a non-dict). -/
def itemStep (item : Json) : Except Unit (Option String) :=
  match item with
  | .obj kvs =>
    match List.lookup "type" kvs with
    | some (.str t) =>
      if t = "message" then
        match List.lookup "content" kvs with
        | some content =>
          match pyIter content with
          | .error e => .error e
          | .ok blocks =>
            let texts := blocks.filterMap blockText
            if texts.isEmpty then .ok none
            else
              match pyJoinNewline texts with
              | .error e => .error e
              | .ok s => .ok (some s)
        | none => .ok none
      else .ok none
    | _ => .ok none
  | _ => .error ()

/-- The `for item in data["output"]` loop: the first item that yields a
non-empty fragment list wins. -/
def scanItems : List Json → Except Unit (Option String)
  | [] => .ok none
  | item :: rest =>
    match itemStep item with
    | .error e => .error e
    | .ok (some s) => .ok (some s)
    | .ok none => scanItems rest

/-- Format 2: `if "output" in data and isinstance(data["output"], list)`. -/
def format2 (data : Json) : Except Unit (Option String) :=
  match pyContains data "output" with
  | .error e => .error e
  | .ok false => .ok none
  | .ok true =>
    match pyIndex data "output" with
    | .error e => .error e
    | .ok v =>
      match v with
      | .arr items => scanItems items
      | _ => .ok none

/-- Format 3: `if "choices" in data and data["choices"]:` then
`data["choices"][0].get("message", {}).get("content", "")`, returned when
truthy (the log slice `content[:200]` raises for non-sliceable values). -/
def format3 (data : Json) : Except Unit (Option Json) :=
  match pyContains data "choices" with
  | .error e => .error e
  | .ok false => .ok none
  | .ok true =>
    match pyIndex data "choices" with
    | .error e => .error e
    | .ok v =>
      if truthy v then
        match pyIndex0 v with
        | .error e => .error e
        | .ok first =>
          match pyGet first "message" (Json.obj []) with
          | .error e => .error e
          | .ok msg =>
            match pyGet msg "content" (Json.str "") with
            | .error e => .error e
            | .ok content =>
              if truthy content then
                if sliceOk content then .ok (some content) else .error ()
              else .ok none
      else .ok none

/-- Formats 2 and 3 followed by the diagnostic fallback (the part of the
parsing chain reached when format 1 falls through). -/
def parseTail (agent_name : String) (data : Json) : Except Unit Json :=
  match format2 data with
  | .error e => .error e
  | .ok (some s) => .ok (Json.str s)
  | .ok none =>
    match format3 data with
    | .error e => .error e
    | .ok (some v) => .ok v
    | .ok none => .ok (Json.str (unparsableMsg agent_name data))

/-- The whole parsing region of the `try` block, from format 1 on. -/
def parseCore (agent_name : String) (data : Json) : Except Unit Json :=
  match format1 data with
  | .error e => .error e
  | .ok (some v) => .ok v
  | .ok none => parseTail agent_name data

/-- Parsing of a decoded 2xx payload as seen by the caller: an exception
anywhere in the parsing region is caught by `except Exception` and turned
into the generic apology. -/
def parseResponse (agent_name : String) (data : Json) : Json :=
  match parseCore agent_name data with
  | .ok v => v
  | .error _ => Json.str (genericApology agent_name)

/-! ### Request building and the sub-agent client -/

/-- Python `s.rstrip('/')`: remove every trailing `'/'`. -/
def pyRstripSlash (s : String) : String :=
  String.mk ((s.data.reverse.dropWhile (fun c => c == '/')).reverse)

/-- The pinned path-and-query appended to the project endpoint. -/
def apiSuffix : String := "/openai/responses?api-version=2025-11-15-preview"

/-- The URL `url = f"{FOUNDRY_PROJECT_ENDPOINT.rstrip('/')}/openai/responses?api-version=..."`. -/
def buildUrl (endpoint : String) : String :=
  pyRstripSlash endpoint ++ apiSuffix

/-- One entry of the request body's `input` array. -/
structure RequestMsg where
  role : String
  content : String
deriving DecidableEq

/-- The POST request issued by `_call_sub_agent` (the `Authorization` header
carries the externally-acquired bearer token, modelled by the `getToken`
effect below). -/
structure AgentRequest where
  url : String
  input : List RequestMsg
  agentName : String
  agentVersion : String
  stream : Bool
deriving DecidableEq

/-- What the network does with the POST: a 2xx response with a decoded JSON
body, a non-2xx status (`raise_for_status` raises `httpx.HTTPStatusError`),
a transport failure (`httpx.RequestError`), or any other exception raised
while issuing the request or decoding the body. -/
inductive CallOutcome where
  | success (data : Json)
  | httpStatusError (code : Nat)
  | transportError
  | otherError

/-- Externally observable side effects of one client invocation. -/
inductive Effect where
  | getToken (scope : String)
  | httpPost (req : AgentRequest)
deriving DecidableEq

/-- Process configuration read from the environment at startup. -/
structure Config where
  endpoint : String
  opsName : String
  opsVersion : String
  menuName : String
  menuVersion : String

/-- The fixed audience scope of `credential.get_token`. -/
def tokenScope : String := "https://ai.azure.com/.default"

/-- The request body built by `_call_sub_agent`: the question wrapped as the
single user-role input, the agent reference by name and version, no
streaming. -/
def mkRequest (cfg : Config) (question agent_name agent_version : String) : AgentRequest :=
  { url := buildUrl cfg.endpoint
    input := [{ role := "user", content := question }]
    agentName := agent_name
    agentVersion := agent_version
    stream := false }

/-- The client `_call_sub_agent`: returns the Python value handed back to the tool
(always a string except in degenerate payload cases) together with the list
of effects performed, given a network oracle `net`.  This models the
function from the point where the bearer token has been acquired (the
endpoint guard plus the guarded `try` region); `call_sub_agent_cred` below
additionally models the credential step itself, which runs before the `try`
and can fail. -/
def call_sub_agent (cfg : Config) (net : AgentRequest → CallOutcome)
    (question agent_name agent_version : String) : Json × List Effect :=
  if cfg.endpoint = "" then
    (Json.str (missingEndpointMsg agent_name), [])
  else
    let req := mkRequest cfg question agent_name agent_version
    let effects := [Effect.getToken tokenScope, Effect.httpPost req]
    match net req with
    | .success data => (parseResponse agent_name data, effects)
    | .httpStatusError code => (Json.str (statusErrorMsg agent_name code), effects)
    | .transportError => (Json.str (transportErrorMsg agent_name), effects)
    | .otherError => (Json.str (genericApology agent_name), effects)

/-- Outcome of the credential step `DefaultAzureCredential()` followed by
`credential.get_token("https://ai.azure.com/.default")`: either a bearer
token, or an exception raised while acquiring it (no credential available in
the chain, network failure to the token endpoint, ...). -/
inductive TokenOutcome where
  | token (t : String)
  | raised

/-- The whole of `_call_sub_agent` including the credential step. The
endpoint guard runs first; then the credential is acquired OUTSIDE the
`try` block, so a credential-acquisition failure propagates uncaught to the
caller (`.error ()`) — it is NOT converted to the generic apology; only
after that does the guarded request/parse region run, whose error paths all
return text. `call_sub_agent` above is the abstraction of this function for
a successfully acquired token (see `call_sub_agent_cred_token`). -/
def call_sub_agent_cred (cfg : Config) (cred : TokenOutcome)
    (net : AgentRequest → CallOutcome)
    (question agent_name agent_version : String) :
    Except Unit (Json × List Effect) :=
  if cfg.endpoint = "" then
    .ok (Json.str (missingEndpointMsg agent_name), [])
  else
    match cred with
    | .raised => .error ()
    | .token _ =>
      let req := mkRequest cfg question agent_name agent_version
      let effects := [Effect.getToken tokenScope, Effect.httpPost req]
      match net req with
      | .success data => .ok (parseResponse agent_name data, effects)
      | .httpStatusError code => .ok (Json.str (statusErrorMsg agent_name code), effects)
      | .transportError => .ok (Json.str (transportErrorMsg agent_name), effects)
      | .otherError => .ok (Json.str (genericApology agent_name), effects)

/-- Tool `query_ops_agent`: forwards the question verbatim to the ops agent. -/
def query_ops_agent (cfg : Config) (net : AgentRequest → CallOutcome)
    (question : String) : Json × List Effect :=
  call_sub_agent cfg net question cfg.opsName cfg.opsVersion

/-- Tool `query_menu_agent`: forwards the question verbatim to the menu agent. -/
def query_menu_agent (cfg : Config) (net : AgentRequest → CallOutcome)
    (question : String) : Json × List Effect :=
  call_sub_agent cfg net question cfg.menuName cfg.menuVersion

/-! ### The router loop (`llm_call` / `tool_node` / `should_continue`) -/

/-- A Tool Call requested by the deciding LLM: `args = {"question": ...}`. -/
structure ToolCall where
  id : String
  name : String
  question : String
deriving DecidableEq

/-- A conversation message of the LangGraph `MessagesState`. -/
inductive Msg where
  | user (content : String)
  | assistant (content : String) (tool_calls : List ToolCall)
  | tool (tool_call_id : String) (content : String)
deriving DecidableEq

/-- Dispatch `_tools_by_name[tool_call["name"]]` followed by `t.invoke(...)` and
`ToolMessage(content=str(observation), tool_call_id=...)`; an unknown tool
name raises `KeyError`. -/
def runTool (cfg : Config) (net : AgentRequest → CallOutcome) (tc : ToolCall) :
    Except Unit Msg :=
  if tc.name = "query_ops_agent" then
    .ok (Msg.tool tc.id (pyToStr (query_ops_agent cfg net tc.question).1))
  else if tc.name = "query_menu_agent" then
    .ok (Msg.tool tc.id (pyToStr (query_menu_agent cfg net tc.question).1))
  else .error ()

/-- Node `tool_node`: services every tool call of the last LLM message, in order,
producing one `ToolMessage` per call. -/
def tool_node (cfg : Config) (net : AgentRequest → CallOutcome) :
    List ToolCall → Except Unit (List Msg)
  | [] => .ok []
  | tc :: rest =>
    match runTool cfg net tc with
    | .error e => .error e
    | .ok m =>
      match tool_node cfg net rest with
      | .error e => .error e
      | .ok ms => .ok (m :: ms)

/-- The compiled graph of `build_graph`, run with `fuel` as the recursion
bound: `llm_call` appends one assistant message (the deciding LLM is the
oracle `llm`, which receives the conversation; the constant system prompt is
absorbed into the oracle), `should_continue` routes to `tool_node` iff that
message carries tool calls, and the tool results are appended before
`llm_call` runs again. -/
def routerLoop (cfg : Config) (net : AgentRequest → CallOutcome)
    (llm : List Msg → String × List ToolCall) :
    Nat → List Msg → Except Unit (List Msg)
  | 0, msgs => .ok msgs
  | fuel + 1, msgs =>
    let step := llm msgs
    let msgs' := msgs ++ [Msg.assistant step.1 step.2]
    if step.2.isEmpty then .ok msgs'
    else
      match tool_node cfg net step.2 with
      | .error e => .error e
      | .ok results => routerLoop cfg net llm fuel (msgs' ++ results)

/-- The user-visible answer of a finished turn: the content of the final
assistant message. -/
def finalAnswer (msgs : List Msg) : Option String :=
  match msgs.getLast? with
  | some (Msg.assistant c _) => some c
  | _ => none

/-! ### Substring containment -/

/-- Containment: `needle` occurs contiguously inside `hay`. -/
def strContains (needle hay : String) : Prop :=
  needle.data <:+: hay.data

instance (n h : String) : Decidable (strContains n h) :=
  List.decidableInfix n.data h.data

/-! ### Spec-side reference definitions (shape 2) -/

/-- Modelled from the spec: "each content block is either an object carrying
a text field or a raw string" — the text fragment a block contributes. -/
def spec_blockText : Json → Option String
  | .obj kvs =>
    match List.lookup "text" kvs with
    | some (.str s) => some s
    | _ => none
  | .str s => some s
  | _ => none

/-- Modelled from the spec: the fragments of one message-type item. -/
def spec_itemFragments : Json → List String
  | .obj kvs =>
    match List.lookup "type" kvs with
    | some (.str t) =>
      if t = "message" then
        match List.lookup "content" kvs with
        | some (.arr blocks) => blocks.filterMap spec_blockText
        | _ => []
      else []
    | _ => []
  | _ => []

/-- Modelled from the spec: "concatenate all extracted text fragments with
newline separators, preserving array order" — ALL fragments of ALL
message-type items of the `output` array. -/
def spec_allFragments (data : Json) : List String :=
  match data with
  | .obj kvs =>
    match List.lookup "output" kvs with
    | some (.arr items) => (items.map spec_itemFragments).flatten
    | _ => []
  | _ => []

/-! ### Well-formed shape-2 payload builders (used to quantify over the
claim's payload class) -/

/-- A content block of the documented kind: `Sum.inl t` is an object carrying
a text field, `Sum.inr s` is a raw string block. -/
def mkBlock : Sum String String → Json
  | .inl t => .obj [("text", .str t)]
  | .inr s => .str s

/-- A message-type item whose content is the given blocks. -/
def mkItem (bs : List (Sum String String)) : Json :=
  .obj [("type", .str "message"), ("content", .arr (bs.map mkBlock))]

/-- The fragments such an item's blocks carry densely, in order. -/
def fragmentsOf (bs : List (Sum String String)) : List String :=
  bs.map (Sum.elim id id)

/-! ### Concrete demo oracles for witnesses and counterexamples -/

/-- A configured environment. -/
def cfgDemo : Config :=
  { endpoint := "https://demo.example"
    opsName := "ContosoOpsAgent"
    opsVersion := "1"
    menuName := "ContosoMenuAgent"
    menuVersion := "1" }

/-- A backend that always answers 2xx with `{"output_text": r}`. -/
def netOutputText (r : String) : AgentRequest → CallOutcome :=
  fun _ => .success (.obj [("output_text", .str r)])

/-- A deciding LLM that first delegates to the ops tool and then, instead of
passing the tool result through, replies with its own commentary. -/
def llmDefiant : List Msg → String × List ToolCall :=
  fun msgs =>
    if msgs.length ≤ 1 then
      ("", [⟨"call_1", "query_ops_agent", "How are stores doing?"⟩])
    else
      ("Let me summarize what the Ops Agent said.", [])

/-- A deciding LLM that first delegates to the ops tool and then returns the
tool result verbatim, as the system prompt instructs. -/
def llmCompliant : List Msg → String × List ToolCall :=
  fun msgs =>
    match msgs.getLast? with
    | some (Msg.tool _ r) => (r, [])
    | _ => ("", [⟨"call_1", "query_ops_agent", "ping"⟩])

/-- A deciding LLM that requests two tool calls in a single decision. -/
def llmDouble : List Msg → String × List ToolCall :=
  fun msgs =>
    if msgs.length ≤ 1 then
      ("", [⟨"call_1", "query_ops_agent", "How did Southwest stores perform?"⟩,
            ⟨"call_2", "query_menu_agent", "Pitch a summer LTO."⟩])
    else
      ("done", [])

/-! ### Helper lemmas -/

/-- Two strings differing at some character position are different. -/
theorem string_ne_of_nth_ne (a b : String) (n : Nat)
    (h : a.data[n]? ≠ b.data[n]?) : a ≠ b :=
  fun e => h (by rw [e])

/-- Dropping leading slashes ignores a block of slashes in front. -/
theorem dropWhile_slash_replicate (n : Nat) (l : List Char) :
    List.dropWhile (fun c => c == '/') (List.replicate n '/' ++ l)
      = List.dropWhile (fun c => c == '/') l := by
  induction n with
  | zero => simp
  | succ k ih => simp [List.replicate_succ, List.dropWhile_cons, ih]

/-- Stripping `pyRstripSlash` ignores trailing slashes. -/
theorem pyRstripSlash_append_slashes (e : String) (n : Nat) :
    pyRstripSlash (e ++ String.mk (List.replicate n '/')) = pyRstripSlash e := by
  unfold pyRstripSlash
  congr 1
  rw [String.data_append]
  show ((e.data ++ List.replicate n '/').reverse.dropWhile _).reverse = _
  rw [List.reverse_append, List.reverse_replicate, dropWhile_slash_replicate]

/-- For a configured endpoint, one client invocation performs exactly a token
acquisition followed by the POST of the built request. -/
theorem call_sub_agent_effects (cfg : Config) (net : AgentRequest → CallOutcome)
    (q nm vr : String) (h : cfg.endpoint ≠ "") :
    (call_sub_agent cfg net q nm vr).2
      = [Effect.getToken tokenScope, Effect.httpPost (mkRequest cfg q nm vr)] := by
  simp only [call_sub_agent, if_neg h]
  split <;> rfl

/-! ### Claims -/

/-- C10: the request URL built by the Sub-Agent Client equals the configured
base endpoint with trailing `'/'` characters removed followed by
`"/openai/responses?api-version=2025-11-15-preview"`, and is therefore
invariant under trailing slashes in the endpoint: two base endpoints
differing only in trailing slashes produce identical URLs. -/
theorem C10_url_invariant_under_trailing_slashes :
    (∀ e : String,
        buildUrl e = pyRstripSlash e ++ "/openai/responses?api-version=2025-11-15-preview")
    ∧ (∀ (e : String) (n : Nat),
        buildUrl (e ++ String.mk (List.replicate n '/')) = buildUrl e) := by
  constructor
  · intro e
    rfl
  · intro e n
    unfold buildUrl
    rw [pyRstripSlash_append_slashes]

/-- C6: with an unconfigured (empty) base endpoint the Sub-Agent Client fails
fast for every question and agent reference: it returns the descriptive
configuration-error text, which contains the target agent's name, performs no
token acquisition and no HTTP request (empty effect list), and does not
raise. -/
theorem C6_missing_endpoint (cfg : Config) (net : AgentRequest → CallOutcome)
    (question agent_name agent_version : String) (h : cfg.endpoint = "") :
    call_sub_agent cfg net question agent_name agent_version
      = (Json.str (missingEndpointMsg agent_name), [])
    ∧ strContains agent_name (missingEndpointMsg agent_name) := by
  constructor
  · unfold call_sub_agent
    rw [if_pos h]
  · show agent_name.data <:+: (missingEndpointMsg agent_name).data
    unfold missingEndpointMsg
    rw [String.data_append, String.data_append]
    exact List.infix_append _ _ _

/-- C6 witness: concrete missing-endpoint invocation. -/
theorem C6_missing_endpoint_witness :
    call_sub_agent { cfgDemo with endpoint := "" } (netOutputText "hi") "q" "ContosoOpsAgent" "1"
      = (Json.str (missingEndpointMsg "ContosoOpsAgent"), [])
    ∧ strContains "ContosoOpsAgent" (missingEndpointMsg "ContosoOpsAgent") :=
  C6_missing_endpoint _ _ _ _ _ rfl

/-- C5: for every question `Q` and either tool (ops, menu), the request body
posted by the Sub-Agent Client carries `Q` verbatim as its single user-role
input entry: the question is not paraphrased or summarized at the tool or
client layer. -/
theorem C5_question_passed_verbatim (cfg : Config) (net : AgentRequest → CallOutcome)
    (q : String) (h : cfg.endpoint ≠ "") :
    ((query_ops_agent cfg net q).2
        = [Effect.getToken tokenScope,
           Effect.httpPost (mkRequest cfg q cfg.opsName cfg.opsVersion)]
      ∧ (mkRequest cfg q cfg.opsName cfg.opsVersion).input
        = [{ role := "user", content := q }])
    ∧ ((query_menu_agent cfg net q).2
        = [Effect.getToken tokenScope,
           Effect.httpPost (mkRequest cfg q cfg.menuName cfg.menuVersion)]
      ∧ (mkRequest cfg q cfg.menuName cfg.menuVersion).input
        = [{ role := "user", content := q }]) :=
  ⟨⟨call_sub_agent_effects cfg net q cfg.opsName cfg.opsVersion h, rfl⟩,
   ⟨call_sub_agent_effects cfg net q cfg.menuName cfg.menuVersion h, rfl⟩⟩

/-- C5 witness: a concrete question reaches the request body verbatim for
both tools. -/
theorem C5_question_passed_verbatim_witness :
    ((query_ops_agent cfgDemo (netOutputText "ok") "How fast is the drive-thru?").2
        = [Effect.getToken tokenScope,
           Effect.httpPost (mkRequest cfgDemo "How fast is the drive-thru?"
              cfgDemo.opsName cfgDemo.opsVersion)]
      ∧ (mkRequest cfgDemo "How fast is the drive-thru?" cfgDemo.opsName cfgDemo.opsVersion).input
        = [{ role := "user", content := "How fast is the drive-thru?" }])
    ∧ ((query_menu_agent cfgDemo (netOutputText "ok") "How fast is the drive-thru?").2
        = [Effect.getToken tokenScope,
           Effect.httpPost (mkRequest cfgDemo "How fast is the drive-thru?"
              cfgDemo.menuName cfgDemo.menuVersion)]
      ∧ (mkRequest cfgDemo "How fast is the drive-thru?" cfgDemo.menuName cfgDemo.menuVersion).input
        = [{ role := "user", content := "How fast is the drive-thru?" }]) :=
  C5_question_passed_verbatim cfgDemo (netOutputText "ok") "How fast is the drive-thru?"
    (by decide)

/-- C8 counterexample: credential acquisition is NOT cached across calls —
`_call_sub_agent` constructs a fresh `DefaultAzureCredential` and calls
`get_token` inside every invocation, so a second invocation acquires a bearer
token again, contradicting the claim that after the first invocation no
subsequent invocation acquires a new token. -/
theorem C8_counterexample :
    (call_sub_agent cfgDemo (netOutputText "pong") "first question" "ContosoOpsAgent" "1").2
      = [Effect.getToken tokenScope,
         Effect.httpPost (mkRequest cfgDemo "first question" "ContosoOpsAgent" "1")]
    ∧ (call_sub_agent cfgDemo (netOutputText "pong") "second question" "ContosoOpsAgent" "1").2
      = [Effect.getToken tokenScope,
         Effect.httpPost (mkRequest cfgDemo "second question" "ContosoOpsAgent" "1")]
    ∧ Effect.getToken tokenScope
      ∈ (call_sub_agent cfgDemo (netOutputText "pong") "second question" "ContosoOpsAgent" "1").2 :=
  ⟨rfl, rfl, by decide⟩

/-- C8 amended: every invocation of the Sub-Agent Client with a configured
endpoint acquires a fresh bearer token (exactly one `get_token` call per
request); tokens are not cached or reused across calls. -/
theorem C8_token_acquired_per_call (cfg : Config) (net : AgentRequest → CallOutcome)
    (q nm vr : String) (h : cfg.endpoint ≠ "") :
    (call_sub_agent cfg net q nm vr).2
      = [Effect.getToken tokenScope, Effect.httpPost (mkRequest cfg q nm vr)] :=
  call_sub_agent_effects cfg net q nm vr h

/-- C8 witness: concrete invocation acquiring a token. -/
theorem C8_token_acquired_per_call_witness :
    (call_sub_agent cfgDemo (netOutputText "pong") "q" "ContosoOpsAgent" "1").2
      = [Effect.getToken tokenScope,
         Effect.httpPost (mkRequest cfgDemo "q" "ContosoOpsAgent" "1")] :=
  C8_token_acquired_per_call cfgDemo (netOutputText "pong") "q" "ContosoOpsAgent" "1" (by decide)

/-- The status-error text differs from the transport-error text for every
agent name and status code (they disagree at character 18, after the common
prefix `"Sorry, I couldn't "`). -/
theorem statusErrorMsg_ne_transportErrorMsg (nm : String) (code : Nat) :
    statusErrorMsg nm code ≠ transportErrorMsg nm := by
  apply string_ne_of_nth_ne _ _ 18
  unfold statusErrorMsg transportErrorMsg
  simp only [String.data_append, List.append_assoc]
  rw [List.getElem?_append_left (by decide), List.getElem?_append_left (by decide)]
  decide

/-- The status-error text differs from the generic apology (character 7). -/
theorem statusErrorMsg_ne_genericApology (nm : String) (code : Nat) :
    statusErrorMsg nm code ≠ genericApology nm := by
  apply string_ne_of_nth_ne _ _ 7
  unfold statusErrorMsg genericApology
  simp only [String.data_append, List.append_assoc]
  rw [List.getElem?_append_left (by decide), List.getElem?_append_left (by decide)]
  decide

/-- The transport-error text differs from the generic apology (character 7). -/
theorem transportErrorMsg_ne_genericApology (nm : String) :
    transportErrorMsg nm ≠ genericApology nm := by
  apply string_ne_of_nth_ne _ _ 7
  unfold transportErrorMsg genericApology
  simp only [String.data_append, List.append_assoc]
  rw [List.getElem?_append_left (by decide), List.getElem?_append_left (by decide)]
  decide

/-- Error mapping of the `try` region of the Sub-Agent Client (supporting
lemma): for exceptions raised while issuing the request or handling the
response, a non-2xx HTTP status yields the user-facing text naming the agent
and containing the status code, a transport-level failure yields the
distinct try-later text, any other such exception yields the generic
apology, and the three texts are pairwise distinct.  This covers only the
guarded region: a credential-acquisition failure happens BEFORE the `try`
and propagates instead (see `C4_token_failure_propagates`). -/
theorem tryRegion_error_mapping (cfg : Config) (net : AgentRequest → CallOutcome)
    (q nm vr : String) (code : Nat) (h : cfg.endpoint ≠ "") :
    (net (mkRequest cfg q nm vr) = CallOutcome.httpStatusError code →
        (call_sub_agent cfg net q nm vr).1 = Json.str (statusErrorMsg nm code))
    ∧ (net (mkRequest cfg q nm vr) = CallOutcome.transportError →
        (call_sub_agent cfg net q nm vr).1 = Json.str (transportErrorMsg nm))
    ∧ (net (mkRequest cfg q nm vr) = CallOutcome.otherError →
        (call_sub_agent cfg net q nm vr).1 = Json.str (genericApology nm))
    ∧ strContains nm (statusErrorMsg nm code)
    ∧ strContains (toString code) (statusErrorMsg nm code)
    ∧ statusErrorMsg nm code ≠ transportErrorMsg nm
    ∧ statusErrorMsg nm code ≠ genericApology nm
    ∧ transportErrorMsg nm ≠ genericApology nm := by
  refine ⟨?_, ?_, ?_, ?_, ?_, statusErrorMsg_ne_transportErrorMsg nm code,
    statusErrorMsg_ne_genericApology nm code, transportErrorMsg_ne_genericApology nm⟩
  · intro hn
    simp only [call_sub_agent, if_neg h, hn]
  · intro hn
    simp only [call_sub_agent, if_neg h, hn]
  · intro hn
    simp only [call_sub_agent, if_neg h, hn]
  · show nm.data <:+: (statusErrorMsg nm code).data
    unfold statusErrorMsg
    simp only [String.data_append, List.append_assoc]
    exact ⟨"Sorry, I couldn't reach the ".data,
      (". It returned HTTP " ++ toString code ++ ". Please try again.").data, by
        simp [String.data_append]⟩
  · show (toString code).data <:+: (statusErrorMsg nm code).data
    unfold statusErrorMsg
    simp only [String.data_append, List.append_assoc]
    exact ⟨("Sorry, I couldn't reach the " ++ nm ++ ". It returned HTTP ").data,
      ". Please try again.".data, by simp [String.data_append]⟩

/-- Concrete 500-status, transport-failure and unexpected-error invocations
of the guarded region produce the three texts. -/
theorem tryRegion_error_mapping_examples :
    (call_sub_agent cfgDemo (fun _ => CallOutcome.httpStatusError 500)
        "q" "ContosoOpsAgent" "1").1 = Json.str (statusErrorMsg "ContosoOpsAgent" 500)
    ∧ (call_sub_agent cfgDemo (fun _ => CallOutcome.transportError)
        "q" "ContosoOpsAgent" "1").1 = Json.str (transportErrorMsg "ContosoOpsAgent")
    ∧ (call_sub_agent cfgDemo (fun _ => CallOutcome.otherError)
        "q" "ContosoOpsAgent" "1").1 = Json.str (genericApology "ContosoOpsAgent")
    ∧ strContains "500" (statusErrorMsg "ContosoOpsAgent" 500)
    ∧ statusErrorMsg "ContosoOpsAgent" 500 ≠ transportErrorMsg "ContosoOpsAgent" :=
  ⟨(tryRegion_error_mapping cfgDemo (fun _ => CallOutcome.httpStatusError 500)
      "q" "ContosoOpsAgent" "1" 500 (by decide)).1 rfl,
   (tryRegion_error_mapping cfgDemo (fun _ => CallOutcome.transportError)
      "q" "ContosoOpsAgent" "1" 500 (by decide)).2.1 rfl,
   (tryRegion_error_mapping cfgDemo (fun _ => CallOutcome.otherError)
      "q" "ContosoOpsAgent" "1" 500 (by decide)).2.2.1 rfl,
   (tryRegion_error_mapping cfgDemo (fun _ => CallOutcome.otherError)
      "q" "ContosoOpsAgent" "1" 500 (by decide)).2.2.2.2.1,
   (tryRegion_error_mapping cfgDemo (fun _ => CallOutcome.otherError)
      "q" "ContosoOpsAgent" "1" 500 (by decide)).2.2.2.2.2.1⟩

/-- With a successfully acquired token (and the endpoint either way), the
full client `call_sub_agent_cred` returns normally and agrees with the
`try`-region model `call_sub_agent`. -/
theorem call_sub_agent_cred_token (cfg : Config) (t : String)
    (net : AgentRequest → CallOutcome) (q nm vr : String) :
    call_sub_agent_cred cfg (TokenOutcome.token t) net q nm vr
      = Except.ok (call_sub_agent cfg net q nm vr) := by
  by_cases h : cfg.endpoint = ""
  · simp [call_sub_agent_cred, call_sub_agent, h]
  · cases hn : net (mkRequest cfg q nm vr) <;>
      simp [call_sub_agent_cred, call_sub_agent, if_neg h, hn]

/-- C4: code bug — the claim's "any other unexpected exception yields a
generic apology; the function never lets an exception propagate to the
Router" fails on the credential path: `DefaultAzureCredential()` and
`get_token` run BEFORE the `try` block, so with a configured endpoint a
credential-acquisition failure propagates uncaught out of `_call_sub_agent`
(no text, no apology), terminating the Router's turn — evaluated here at a
concrete failing input; the same invocation with an acquired token returns
the parsed text with its effects. -/
theorem C4_token_failure_propagates :
    call_sub_agent_cred cfgDemo TokenOutcome.raised (netOutputText "pong")
        "q" "ContosoOpsAgent" "1"
      = Except.error ()
    ∧ call_sub_agent_cred cfgDemo (TokenOutcome.token "tok") (netOutputText "pong")
        "q" "ContosoOpsAgent" "1"
      = Except.ok (Json.str "pong",
          [Effect.getToken tokenScope,
           Effect.httpPost (mkRequest cfgDemo "q" "ContosoOpsAgent" "1")]) :=
  ⟨rfl, rfl⟩

/-- C9: a present but falsy (e.g. empty-string) `output_text` value is not
returned: format 1 falls through, parsing continues with the output-array and
choices shapes, and shape 1 only ever returns a truthy (non-empty)
`output_text` value. -/
theorem C9_falsy_output_text_falls_through (name : String)
    (kvs : List (String × Json)) (v : Json)
    (hv : List.lookup "output_text" kvs = some v) (hf : truthy v = false) :
    format1 (Json.obj kvs) = Except.ok none
    ∧ parseCore name (Json.obj kvs) = parseTail name (Json.obj kvs)
    ∧ (∀ (d w : Json), format1 d = Except.ok (some w) → truthy w = true) := by
  have h1 : format1 (Json.obj kvs) = Except.ok none := by
    simp [format1, pyContains, pyIndex, hv, hf]
  refine ⟨h1, by simp [parseCore, h1], ?_⟩
  intro d w hw
  unfold format1 at hw
  split at hw
  · exact absurd hw (by simp)
  · exact absurd hw (by simp)
  · split at hw
    · exact absurd hw (by simp)
    · split at hw
      · split at hw
        · simp only [Except.ok.injEq, Option.some.injEq] at hw
          subst hw
          assumption
        · exact absurd hw (by simp)
      · exact absurd hw (by simp)

/-- C9 witness: `{"output_text": "", "choices": [...]}` falls through shape 1
and is answered from the choices shape. -/
theorem C9_falsy_output_text_falls_through_witness :
    format1 (Json.obj [("output_text", Json.str ""),
        ("choices", Json.arr [Json.obj [("message",
            Json.obj [("content", Json.str "from choices")])]])])
      = Except.ok none
    ∧ parseResponse "ContosoOpsAgent" (Json.obj [("output_text", Json.str ""),
        ("choices", Json.arr [Json.obj [("message",
            Json.obj [("content", Json.str "from choices")])]])])
      = Json.str "from choices" :=
  ⟨(C9_falsy_output_text_falls_through "ContosoOpsAgent"
      [("output_text", Json.str ""),
       ("choices", Json.arr [Json.obj [("message",
           Json.obj [("content", Json.str "from choices")])]])]
      (Json.str "") rfl rfl).1, rfl⟩

/-- C3: the Sub-Agent Client attempts the three known response shapes in
order — a truthy top-level `output_text` wins over everything, the `output`
array is consulted only when shape 1 falls through, the `choices` array only
when shapes 1 and 2 fall through — and when none match it returns the
clearly-marked unparsable text embedding the truncated (300-character) raw
payload; an exception inside the parsing region never propagates: it is
caught and converted to the generic apology text. -/
theorem C3_shapes_attempted_in_order (name : String) (kvs : List (String × Json)) :
    (∀ s : String, List.lookup "output_text" kvs = some (Json.str s) → s ≠ "" →
        parseResponse name (Json.obj kvs) = Json.str s)
    ∧ (∀ (items : List Json) (t : String),
        List.lookup "output_text" kvs = none →
        List.lookup "output" kvs = some (Json.arr items) →
        scanItems items = Except.ok (some t) →
        parseResponse name (Json.obj kvs) = Json.str t)
    ∧ (∀ (c0 m : List (String × Json)) (rest : List Json) (s : String),
        List.lookup "output_text" kvs = none →
        List.lookup "output" kvs = none →
        List.lookup "choices" kvs = some (Json.arr (Json.obj c0 :: rest)) →
        List.lookup "message" c0 = some (Json.obj m) →
        List.lookup "content" m = some (Json.str s) →
        s ≠ "" →
        parseResponse name (Json.obj kvs) = Json.str s)
    ∧ (List.lookup "output_text" kvs = none →
       List.lookup "output" kvs = none →
       List.lookup "choices" kvs = none →
        parseResponse name (Json.obj kvs)
          = Json.str (unparsableMsg name (Json.obj kvs))
        ∧ strContains ((pyToStr (Json.obj kvs)).take 300)
            (unparsableMsg name (Json.obj kvs)))
    ∧ (∀ d : Json, parseCore name d = Except.error () →
        parseResponse name d = Json.str (genericApology name)) := by
  refine ⟨?_, ?_, ?_, ?_, ?_⟩
  · intro s h1 h2
    have hie : s.isEmpty = false := by
      rw [Bool.eq_false_iff]
      simpa [String.isEmpty_iff] using h2
    have ht : truthy (Json.str s) = true := by simp [truthy, hie]
    simp [parseResponse, parseCore, format1, pyContains, pyIndex, h1, ht, sliceOk]
  · intro items t h0 h1 h2
    simp [parseResponse, parseCore, format1, pyContains, pyIndex, h0, parseTail,
      format2, h1, h2]
  · intro c0 m rest s h0 h1 h2 h3 h4 h5
    have hie : s.isEmpty = false := by
      rw [Bool.eq_false_iff]
      simpa [String.isEmpty_iff] using h5
    have ht : truthy (Json.str s) = true := by simp [truthy, hie]
    have ha : truthy (Json.arr (Json.obj c0 :: rest)) = true := rfl
    simp [parseResponse, parseCore, format1, pyContains, pyIndex, h0, parseTail,
      format2, h1, format3, h2, ha, pyIndex0, pyGet, h3, h4, ht, sliceOk]
  · intro h0 h1 h2
    constructor
    · simp [parseResponse, parseCore, format1, pyContains, pyIndex, h0, parseTail,
        format2, h1, format3, h2]
    · show _ <:+: _
      unfold unparsableMsg
      exact ⟨("Received a response from " ++ name
          ++ " but could not parse it. Raw: ").data, [], by
        simp [String.data_append]⟩
  · intro d hd
    simp [parseResponse, hd]

/-- C3 witness: a truthy `output_text` wins even with `choices` present, and
a payload matching no shape yields the diagnostic fallback embedding the
truncated raw payload. -/
theorem C3_shapes_attempted_in_order_witness :
    parseResponse "ContosoOpsAgent"
        (Json.obj [("output_text", Json.str "All good."), ("choices", Json.arr [])])
      = Json.str "All good."
    ∧ parseResponse "ContosoOpsAgent" (Json.obj [("foo", Json.str "bar")])
      = Json.str (unparsableMsg "ContosoOpsAgent" (Json.obj [("foo", Json.str "bar")]))
    ∧ strContains ((pyToStr (Json.obj [("foo", Json.str "bar")])).take 300)
        (unparsableMsg "ContosoOpsAgent" (Json.obj [("foo", Json.str "bar")])) :=
  ⟨(C3_shapes_attempted_in_order "ContosoOpsAgent"
      [("output_text", Json.str "All good."), ("choices", Json.arr [])]).1
      "All good." rfl (by decide),
   ((C3_shapes_attempted_in_order "ContosoOpsAgent"
      [("foo", Json.str "bar")]).2.2.2.1 rfl rfl rfl).1,
   ((C3_shapes_attempted_in_order "ContosoOpsAgent"
      [("foo", Json.str "bar")]).2.2.2.1 rfl rfl rfl).2⟩

/-- A well-formed content block contributes exactly its text fragment. -/
theorem blockText_mkBlock (b : Sum String String) :
    blockText (mkBlock b) = some (Json.str (Sum.elim id id b)) := by
  cases b <;> rfl

/-- Joining with `"\n".join` over string values succeeds. -/
theorem strValues_map_str (l : List String) :
    strValues (l.map Json.str) = Except.ok l := by
  induction l with
  | nil => rfl
  | cons a l ih => simp [strValues, ih]

/-- The fragments the code extracts from well-formed blocks are exactly the
fragments the blocks carry, in order. -/
theorem filterMap_blockText_mkBlock (bs : List (Sum String String)) :
    (bs.map mkBlock).filterMap blockText = (fragmentsOf bs).map Json.str := by
  induction bs with
  | nil => rfl
  | cons b bs ih =>
    cases b <;> simp [mkBlock, blockText, fragmentsOf, ih]

/-- Evaluation of `itemStep` on a well-formed message item. -/
theorem itemStep_mkItem (bs : List (Sum String String)) :
    itemStep (mkItem bs)
      = Except.ok (if bs.isEmpty then none
          else some (String.intercalate "\n" (fragmentsOf bs))) := by
  show (match pyIter (Json.arr (bs.map mkBlock)) with
    | Except.error e => Except.error e
    | Except.ok blocks =>
      let texts := blocks.filterMap blockText
      if texts.isEmpty then (Except.ok none : Except Unit (Option String))
      else
        match pyJoinNewline texts with
        | Except.error e => Except.error e
        | Except.ok s => Except.ok (some s)) = _
  simp only [pyIter, filterMap_blockText_mkBlock]
  cases bs with
  | nil => rfl
  | cons b bs =>
    have h := strValues_map_str (Sum.elim id id b :: bs.map (Sum.elim id id))
    simp only [List.map_cons, List.map_map] at h
    simp [fragmentsOf, pyJoinNewline, h]

/-- The output-array loop returns the newline-join of the first item whose
content yields at least one fragment, skipping earlier fragment-free items. -/
theorem scanItems_first_nonempty (pre : List (List (Sum String String)))
    (it : List (Sum String String)) (post : List (List (Sum String String)))
    (hpre : ∀ j ∈ pre, j = []) (hit : it ≠ []) :
    scanItems ((pre ++ it :: post).map mkItem)
      = Except.ok (some (String.intercalate "\n" (fragmentsOf it))) := by
  induction pre with
  | nil =>
    have hb : it.isEmpty = false := by
      rw [Bool.eq_false_iff]
      simpa [List.isEmpty_iff] using hit
    simp [scanItems, itemStep_mkItem, hb]
  | cons j pre ih =>
    have hj : j = [] := hpre j (by simp)
    subst hj
    have hstep : itemStep (mkItem []) = Except.ok none := by
      simp [itemStep_mkItem]
    simp only [List.cons_append, List.map_cons, scanItems, hstep]
    exact ih (fun j hj => hpre j (by simp [hj]))

/-- C2 counterexample: a payload whose `output` array holds TWO message-type
items (fragments "a" and "b") is parsed to "a" alone — the code returns the
newline-join of the first item that yields fragments and ignores later
items — whereas the claim's concatenation of all extracted fragments across
the array is "a\nb". -/
theorem C2_counterexample :
    pyToStr (parseResponse "ContosoMenuAgent"
        (Json.obj [("output", Json.arr [
          Json.obj [("type", Json.str "message"),
            ("content", Json.arr [Json.obj [("text", Json.str "a")]])],
          Json.obj [("type", Json.str "message"),
            ("content", Json.arr [Json.obj [("text", Json.str "b")]])]])]))
      = "a"
    ∧ String.intercalate "\n" (spec_allFragments
        (Json.obj [("output", Json.arr [
          Json.obj [("type", Json.str "message"),
            ("content", Json.arr [Json.obj [("text", Json.str "a")]])],
          Json.obj [("type", Json.str "message"),
            ("content", Json.arr [Json.obj [("text", Json.str "b")]])]])]))
      = "a\nb"
    ∧ ("a" : String) ≠ "a\nb" :=
  ⟨rfl, rfl, by decide⟩

/-- C2 amended: for a payload whose `output` field is an array of
message-type items with well-formed content blocks (objects carrying a text
field or raw strings), the extracted text equals the newline-join — order
preserved — of the fragments of the FIRST item yielding at least one
fragment; fragments of later items are not included. -/
theorem C2_first_matching_item_join (name : String)
    (pre : List (List (Sum String String))) (it : List (Sum String String))
    (post : List (List (Sum String String)))
    (hpre : ∀ j ∈ pre, j = []) (hit : it ≠ []) :
    parseResponse name
        (Json.obj [("output", Json.arr ((pre ++ it :: post).map mkItem))])
      = Json.str (String.intercalate "\n" (fragmentsOf it)) := by
  have h1 : format1 (Json.obj [("output", Json.arr ((pre ++ it :: post).map mkItem))])
      = Except.ok none := rfl
  have h2 : format2 (Json.obj [("output", Json.arr ((pre ++ it :: post).map mkItem))])
      = Except.ok (some (String.intercalate "\n" (fragmentsOf it))) := by
    show scanItems ((pre ++ it :: post).map mkItem) = _
    exact scanItems_first_nonempty pre it post hpre hit
  simp only [parseResponse, parseCore, h1, parseTail, h2]

/-- C2 witness: `[[], ["a" (object block), "b" (raw string block)], ["zzz"]]`
parses to "a\nb" — fragments within the first matching item are joined by
newlines in order, the leading fragment-free item is skipped, later items are
ignored. -/
theorem C2_first_matching_item_join_witness :
    parseResponse "ContosoMenuAgent"
        (Json.obj [("output", Json.arr
          (([[], [Sum.inl "a", Sum.inr "b"], [Sum.inl "zzz"]] :
              List (List (Sum String String))).map mkItem))])
      = Json.str (String.intercalate "\n"
          (fragmentsOf [Sum.inl "a", Sum.inr "b"])) :=
  C2_first_matching_item_join "ContosoMenuAgent" [[]] [Sum.inl "a", Sum.inr "b"]
    [[Sum.inl "zzz"]] (by intro j hj; simpa using hj) (by simp)

/-- C1 counterexample: the pass-through law is not mechanically enforced by
the code — it is delegated to the deciding LLM through the system prompt.
With a deciding LLM that ignores the instruction, the Sub-Agent Client
returns "Stores are fine." as the Tool Result, yet the turn's final
user-visible answer is the LLM's own commentary, not the Tool Result
verbatim. -/
theorem C1_counterexample :
    (query_ops_agent cfgDemo (netOutputText "Stores are fine.") "How are stores doing?").1
      = Json.str "Stores are fine."
    ∧ routerLoop cfgDemo (netOutputText "Stores are fine.") llmDefiant 2
        [Msg.user "How are stores doing?"]
      = Except.ok [Msg.user "How are stores doing?",
          Msg.assistant "" [⟨"call_1", "query_ops_agent", "How are stores doing?"⟩],
          Msg.tool "call_1" "Stores are fine.",
          Msg.assistant "Let me summarize what the Ops Agent said." []]
    ∧ finalAnswer [Msg.user "How are stores doing?",
          Msg.assistant "" [⟨"call_1", "query_ops_agent", "How are stores doing?"⟩],
          Msg.tool "call_1" "Stores are fine.",
          Msg.assistant "Let me summarize what the Ops Agent said." []]
      = some "Let me summarize what the Ops Agent said."
    ∧ ("Let me summarize what the Ops Agent said." : String) ≠ "Stores are fine." :=
  ⟨rfl, rfl, rfl, by decide⟩

/-- C1 amended: `tool_node` records the Sub-Agent Client's text `R` verbatim
as the Tool Result content (`str` of a string is the string itself), and the
final user-visible answer equals `R` verbatim provided the deciding LLM obeys
the system prompt's pass-through instruction, i.e. answers with the last tool
message's content and no further tool calls; the code itself does not enforce
this. -/
theorem C1_pass_through_if_llm_compliant (cfg : Config)
    (net : AgentRequest → CallOutcome) (llm : List Msg → String × List ToolCall)
    (q R : String) (tc : ToolCall)
    (hops : tc.name = "query_ops_agent")
    (hres : (query_ops_agent cfg net tc.question).1 = Json.str R)
    (h0 : llm [Msg.user q] = ("", [tc]))
    (hcomp : ∀ (pre : List Msg) (id r : String), llm (pre ++ [Msg.tool id r]) = (r, [])) :
    routerLoop cfg net llm 2 [Msg.user q]
      = Except.ok [Msg.user q, Msg.assistant "" [tc], Msg.tool tc.id R,
          Msg.assistant R []]
    ∧ finalAnswer [Msg.user q, Msg.assistant "" [tc], Msg.tool tc.id R,
          Msg.assistant R []] = some R := by
  have htool : tool_node cfg net [tc] = Except.ok [Msg.tool tc.id R] := by
    simp [tool_node, runTool, hops, hres, pyToStr]
  have hllm2 : llm [Msg.user q, Msg.assistant "" [tc], Msg.tool tc.id R] = (R, []) := by
    have h := hcomp [Msg.user q, Msg.assistant "" [tc]] tc.id R
    simpa using h
  constructor
  · simp [routerLoop, h0, htool, hllm2]
  · simp [finalAnswer, List.getLast?]

/-- C1 witness: with a compliant deciding LLM the final answer is the
Sub-Agent text "pong" verbatim. -/
theorem C1_pass_through_if_llm_compliant_witness :
    routerLoop cfgDemo (netOutputText "pong") llmCompliant 2 [Msg.user "ping"]
      = Except.ok [Msg.user "ping",
          Msg.assistant "" [⟨"call_1", "query_ops_agent", "ping"⟩],
          Msg.tool "call_1" "pong", Msg.assistant "pong" []]
    ∧ finalAnswer [Msg.user "ping",
          Msg.assistant "" [⟨"call_1", "query_ops_agent", "ping"⟩],
          Msg.tool "call_1" "pong", Msg.assistant "pong" []] = some "pong" :=
  C1_pass_through_if_llm_compliant cfgDemo (netOutputText "pong") llmCompliant
    "ping" "pong" ⟨"call_1", "query_ops_agent", "ping"⟩ rfl rfl rfl
    (fun pre id r => by simp [llmCompliant, List.getLast?_concat])

/-- C7 counterexample: `tool_node` services EVERY tool call of the last LLM
message, so when the deciding LLM emits two Tool Calls in a single decision,
two Tool Calls are serviced in that single Router iteration — not exactly
one as claimed. -/
theorem C7_counterexample :
    tool_node cfgDemo (netOutputText "pong")
        [⟨"call_1", "query_ops_agent", "How did Southwest stores perform?"⟩,
         ⟨"call_2", "query_menu_agent", "Pitch a summer LTO."⟩]
      = Except.ok [Msg.tool "call_1" "pong", Msg.tool "call_2" "pong"]
    ∧ routerLoop cfgDemo (netOutputText "pong") llmDouble 2 [Msg.user "hi"]
      = Except.ok [Msg.user "hi",
          Msg.assistant ""
            [⟨"call_1", "query_ops_agent", "How did Southwest stores perform?"⟩,
             ⟨"call_2", "query_menu_agent", "Pitch a summer LTO."⟩],
          Msg.tool "call_1" "pong", Msg.tool "call_2" "pong",
          Msg.assistant "done" []]
    ∧ ([Msg.tool "call_1" "pong", Msg.tool "call_2" "pong"].length = 2
        ∧ (2 : Nat) ≠ 1) :=
  ⟨rfl, rfl, rfl, by decide⟩

/-- A successfully serviced tool call always produces a tool message whose
`tool_call_id` is the call's id. -/
theorem runTool_ok_shape (cfg : Config) (net : AgentRequest → CallOutcome)
    (tc : ToolCall) (m : Msg) (h : runTool cfg net tc = Except.ok m) :
    ∃ s, m = Msg.tool tc.id s := by
  unfold runTool at h
  split at h
  · cases h
    exact ⟨_, rfl⟩
  · split at h
    · cases h
      exact ⟨_, rfl⟩
    · exact absurd h (by simp)

/-- C7 amended: each Tool Call serviced by `tool_node` yields exactly one
Tool Result whose `tool_call_id` matches that Tool Call's id (one result per
call, in order), and all results are appended to the conversation before the
Router is re-invoked; exactly one Tool Call is serviced per iteration only
when the deciding LLM emits exactly one Tool Call, which the code does not
enforce. -/
theorem C7_one_result_per_tool_call (cfg : Config) (net : AgentRequest → CallOutcome)
    (tcs : List ToolCall) (rs : List Msg)
    (h : tool_node cfg net tcs = Except.ok rs) :
    rs.length = tcs.length
    ∧ (∀ (i : Nat) (hi : i < rs.length) (hj : i < tcs.length),
        ∃ s, rs.get ⟨i, hi⟩ = Msg.tool (tcs.get ⟨i, hj⟩).id s)
    ∧ (∀ (llm : List Msg → String × List ToolCall) (fuel : Nat)
        (msgs : List Msg) (c : String),
        llm msgs = (c, tcs) → tcs ≠ [] →
        routerLoop cfg net llm (fuel + 1) msgs
          = routerLoop cfg net llm fuel ((msgs ++ [Msg.assistant c tcs]) ++ rs)) := by
  refine ⟨?_, ?_, ?_⟩
  · induction tcs generalizing rs with
    | nil =>
      simp only [tool_node] at h
      cases h
      rfl
    | cons tc rest ih =>
      simp only [tool_node] at h
      cases hm : runTool cfg net tc with
      | error e =>
        rw [hm] at h
        cases h
      | ok m =>
        rw [hm] at h
        cases hms : tool_node cfg net rest with
        | error e =>
          rw [hms] at h
          cases h
        | ok ms =>
          rw [hms] at h
          cases h
          simpa using ih ms hms
  · induction tcs generalizing rs with
    | nil =>
      simp only [tool_node] at h
      cases h
      intro i hi
      exact absurd hi (by simp)
    | cons tc rest ih =>
      simp only [tool_node] at h
      cases hm : runTool cfg net tc with
      | error e =>
        rw [hm] at h
        cases h
      | ok m =>
        rw [hm] at h
        cases hms : tool_node cfg net rest with
        | error e =>
          rw [hms] at h
          cases h
        | ok ms =>
          rw [hms] at h
          cases h
          intro i hi hj
          match i with
          | 0 =>
            obtain ⟨s, rfl⟩ := runTool_ok_shape cfg net tc m hm
            exact ⟨s, rfl⟩
          | Nat.succ i =>
            exact ih ms hms i (by simpa using hi) (by simpa using hj)
  · intro llm fuel msgs c hl hne
    simp only [routerLoop, hl]
    have hempty : tcs.isEmpty = false := by
      rw [Bool.eq_false_iff]
      simpa [List.isEmpty_iff] using hne
    simp [hempty, h]

/-- C7 witness: one tool call yields one matching tool result, appended
before the next Router step. -/
theorem C7_one_result_per_tool_call_witness :
    ([Msg.tool "call_1" "pong"] : List Msg).length
      = ([⟨"call_1", "query_ops_agent", "ping"⟩] : List ToolCall).length
    ∧ routerLoop cfgDemo (netOutputText "pong") llmCompliant (0 + 1) [Msg.user "ping"]
      = routerLoop cfgDemo (netOutputText "pong") llmCompliant 0
          (([Msg.user "ping"]
            ++ [Msg.assistant "" [⟨"call_1", "query_ops_agent", "ping"⟩]])
            ++ [Msg.tool "call_1" "pong"]) := by
  have h := C7_one_result_per_tool_call cfgDemo (netOutputText "pong")
    [⟨"call_1", "query_ops_agent", "ping"⟩] [Msg.tool "call_1" "pong"] rfl
  exact ⟨h.1, h.2.2 llmCompliant 0 [Msg.user "ping"] "" rfl (by simp)⟩

end AgentHub
